import Mathlib

/-!
# DNS alias record task (`upup/pkg/fi/cloudup/awstasks/dnsname.go`)

A shallow embedding of the `DNSName` task: discovery (`Find`), alias-target
resolution (`findDNSTarget`, `findDNSTargetELB`, `findDNSTargetNLB`),
validation (`CheckChanges`) and the three renderers (`RenderAWS`,
`RenderTerraform`, `RenderCloudformation`).

Conventions of the embedding:

* a Go pointer `*T` is `Option T` (`none` is `nil`);
* a Go `error` is a value of `Err`, `nil` being `none : Option Err`;
* a Go function returning `(v, error)` returns `Except Err v`;
* a run-time panic (nil dereference) is `GoResult.panicked`;
* calls to the cloud API and to the document writers are functions of the
  request, carried by `AWSCloud`, `AWSAPITarget`, `TerraformTarget` and
  `CloudformationTarget`; log statements are omitted.
-/

set_option autoImplicit false

namespace Awstasks

/-! ## Errors and results -/

/-- Go `error` values that occur in this file.  `fmt.Errorf` calls are kept
symbolically: the format string, the string operands in order, and (for
`wrapf`) the trailing error operand that the format renders with `%v`. -/
inductive Err where
  /-- an error value produced by a collaborator (cloud API, document writer) -/
  | upstream (msg : String)
  /-- the value of `fi.RequiredField(key)` -/
  | requiredField (key : String)
  /-- the value of `fmt.Errorf(format, args...)`, all operands strings -/
  | errorf (format : String) (args : List String)
  /-- the value of `fmt.Errorf(format, args..., cause)` -/
  | wrapf (format : String) (args : List String) (cause : Err)
  deriving DecidableEq, Repr

/-- Outcome of a Go call that may panic before returning. -/
inductive GoResult (α : Type) where
  | panicked
  | returned (v : α)
  deriving DecidableEq, Repr

/-- What a side-effecting operation did: the calls it issued to its
collaborator, in order, and how it ended. -/
structure Effect (Call : Type) where
  calls : List Call
  result : GoResult (Option Err)

/-! ## Library helpers used by the source -/

/-- Go `aws.StringValue`: the pointee, or the empty string for `nil`. -/
def aws.StringValue (s : Option String) : String :=
  match s with
  | none => ""
  | some v => v

/-- Modelled from the spec: `fi.StringValue` (package `fi`, not in this file)
reads an optional string, a `nil` name counting as the empty name. -/
def fi.StringValue (s : Option String) : String :=
  match s with
  | none => ""
  | some v => v

/-- Modelled from the spec: `fi.RequiredField` (package `fi`, not in this
file) builds the required-field error for the given field. -/
def fi.RequiredField (key : String) : Err := Err.requiredField key

/-- Go `strings.HasSuffix`. -/
def strings.HasSuffix (s suffix : String) : Bool :=
  suffix.data.isSuffixOf s.data

/-- Go `strings.TrimSuffix`: `s` without the trailing `suffix`, or `s` itself
when it does not end in `suffix`. -/
def strings.TrimSuffix (s suffix : String) : String :=
  if strings.HasSuffix s suffix then
    ⟨s.data.take (s.data.length - suffix.data.length)⟩
  else s

/-- Replacement loop of `strings.Replace` for a non-empty `old`: scans left to
right, replacing non-overlapping occurrences while the budget lasts
(`none` is "no limit").  `fuel` bounds the number of steps. -/
def strings.replaceLoop (old new : List Char) :
    Nat → Option Nat → List Char → List Char
  | 0, _, l => l
  | _ + 1, some 0, l => l
  | _ + 1, _, [] => []
  | fuel + 1, n, c :: cs =>
    if old.isPrefixOf (c :: cs) then
      new ++ strings.replaceLoop old new fuel (n.map (· - 1)) ((c :: cs).drop old.length)
    else
      c :: strings.replaceLoop old new fuel n cs

/-- Insertion loop of `strings.Replace` for an empty `old`: `new` goes in
front of every character and at the end, while the budget lasts. -/
def strings.insertLoop (new : List Char) : Option Nat → List Char → List Char
  | some 0, l => l
  | _, [] => new
  | n, c :: cs => new ++ c :: strings.insertLoop new (n.map (· - 1)) cs

/-- Go `strings.Replace(s, old, new, n)`: the first `n` non-overlapping
occurrences of `old` replaced by `new`; every occurrence when `n < 0`. -/
def strings.Replace (s old new : String) (n : Int) : String :=
  let budget : Option Nat := if n < 0 then none else some n.toNat
  if old.data = [] then
    ⟨strings.insertLoop new.data budget s.data⟩
  else
    ⟨strings.replaceLoop old.data new.data (s.data.length + 1) budget s.data⟩

/-! ## Data model -/

/-- Modelled from the spec: the hosted-zone handle `DNSZone` (declared in
another file of the package); only its identifier and name are read here. -/
structure DNSZone where
  Name : Option String
  ZoneID : Option String
  deriving DecidableEq, Repr

/-- Modelled from the spec: the classic load-balancer task (declared in
another file of the package): a logical name and a DNS name / hosted-zone
id pair. -/
structure ClassicLoadBalancer where
  Name : Option String
  DNSName : Option String := none
  HostedZoneId : Option String := none
  deriving DecidableEq, Repr

/-- Modelled from the spec: the network load-balancer task (declared in
another file of the package): a logical name and a DNS name / hosted-zone
id pair. -/
structure NetworkLoadBalancer where
  Name : Option String
  DNSName : Option String := none
  HostedZoneId : Option String := none
  deriving DecidableEq, Repr

/-- The `DNSTarget` interface value: one of the two load-balancer tasks. -/
inductive DNSTarget where
  | classic (lb : ClassicLoadBalancer)
  | network (lb : NetworkLoadBalancer)
  deriving DecidableEq, Repr

/-- The `DNSName` task. -/
structure DNSName where
  Name : Option String
  Lifecycle : Option String
  ID : Option String
  Zone : Option DNSZone
  ResourceType : Option String
  TargetLoadBalancer : Option DNSTarget
  deriving DecidableEq, Repr

/-- Route 53 `AliasTarget`. -/
structure AliasTarget where
  DNSName : Option String
  EvaluateTargetHealth : Option Bool
  HostedZoneId : Option String
  deriving DecidableEq, Repr

/-- Route 53 `ResourceRecordSet` (the fields this file reads or writes);
`Type_` is the Go field `Type`. -/
structure ResourceRecordSet where
  Name : Option String
  Type_ : Option String
  AliasTarget : Option AliasTarget
  deriving DecidableEq, Repr

/-- Route 53 `ListResourceRecordSetsInput`. -/
structure ListResourceRecordSetsInput where
  HostedZoneId : Option String
  deriving DecidableEq, Repr

/-- Route 53 `ListResourceRecordSetsOutput`: one page of the listing. -/
structure ListResourceRecordSetsOutput where
  ResourceRecordSets : List ResourceRecordSet
  deriving DecidableEq, Repr

/-- What the paginated listing of a zone delivers: the pages in order, and
the error of the request that follows the last delivered page, if it fails. -/
structure Listing where
  pages : List ListResourceRecordSetsOutput
  err : Option Err
  deriving DecidableEq, Repr

/-- Load-balancer tag (`elb.Tag` and `elbv2.Tag` have the same shape). -/
structure Tag where
  Key : Option String
  Value : Option String
  deriving DecidableEq, Repr

/-- Classic load balancer as described by the cloud (`elb.LoadBalancerDescription`). -/
structure LoadBalancerDescription where
  LoadBalancerName : Option String
  deriving DecidableEq, Repr

/-- Network load balancer as described by the cloud (`elbv2.LoadBalancer`). -/
structure LoadBalancerV2 where
  LoadBalancerName : Option String
  LoadBalancerArn : Option String
  deriving DecidableEq, Repr

/-- A Go `map[string][]*Tag`. -/
abbrev TagMap := List (String × List Tag)

/-- Go map indexing `tagMap[key]`: the stored tags, or the nil slice. -/
def TagMap.index (tagMap : TagMap) (key : String) : List Tag :=
  match tagMap.lookup key with
  | some tags => tags
  | none => []

/-- The cloud as seen by discovery: every query is a function of its
request.  `findLoadBalancerByAlias`, `describeLoadBalancerTags` and their
network counterparts are the package's lookups (declared in other files),
taken as given. -/
structure AWSCloud where
  listResourceRecordSets : ListResourceRecordSetsInput → Listing
  findLoadBalancerByAlias : AliasTarget → Except Err (Option LoadBalancerDescription)
  describeLoadBalancerTags : List String → Except Err TagMap
  findNetworkLoadBalancerByAlias : AliasTarget → Except Err (Option LoadBalancerV2)
  describeNetworkLoadBalancerTags : List String → Except Err TagMap

/-- Modelled from the spec: `awsup.FindELBTag` (package `awsup`, not in this
file) reads the tag with the given key: its value and `true`, or the empty
string and `false` when no tag has that key. -/
def awsup.FindELBTag (tags : List Tag) (key : String) : String × Bool :=
  match tags with
  | [] => ("", false)
  | tag :: rest =>
    if aws.StringValue tag.Key = key then (aws.StringValue tag.Value, true)
    else awsup.FindELBTag rest key

/-- Modelled from the spec: `awsup.FindELBV2Tag` (package `awsup`, not in
this file) reads the tag with the given key: its value and `true`, or the
empty string and `false` when no tag has that key. -/
def awsup.FindELBV2Tag (tags : List Tag) (key : String) : String × Bool :=
  match tags with
  | [] => ("", false)
  | tag :: rest =>
    if aws.StringValue tag.Key = key then (aws.StringValue tag.Value, true)
    else awsup.FindELBV2Tag rest key

/-! ## Alias-target resolution -/

/-- Source `findDNSTargetNLB`. -/
def findDNSTargetNLB (cloud : AWSCloud) (aliasTarget : AliasTarget) (dnsName : String)
    (targetDNSName : Option String) : Except Err (Option DNSTarget) :=
  match cloud.findNetworkLoadBalancerByAlias aliasTarget with
  | .error err =>
    .error (Err.wrapf "error mapping DNSName %q to LoadBalancer: %v" [dnsName] err)
  | .ok none => .ok none
  | .ok (some lb) =>
    let loadBalancerName := aws.StringValue lb.LoadBalancerName
    let loadBalancerArn := aws.StringValue lb.LoadBalancerArn
    match cloud.describeNetworkLoadBalancerTags [loadBalancerArn] with
    | .error err => .error err
    | .ok tagMap =>
      let tags := tagMap.index loadBalancerArn
      let nameTag := (awsup.FindELBV2Tag tags "Name").1
      if nameTag = "" then
        .error (Err.errorf
          "Found NLB %q linked to DNS name %q, but it did not have a Name tag"
          [loadBalancerName, fi.StringValue targetDNSName])
      else
        let nameTag := strings.Replace nameTag "." "-" (-1)
        .ok (some (DNSTarget.network { Name := some nameTag }))

/-- Source `findDNSTargetELB`. -/
def findDNSTargetELB (cloud : AWSCloud) (aliasTarget : AliasTarget) (dnsName : String)
    (targetDNSName : Option String) : Except Err (Option DNSTarget) :=
  match cloud.findLoadBalancerByAlias aliasTarget with
  | .error err =>
    .error (Err.wrapf "error mapping DNSName %q to LoadBalancer: %v" [dnsName] err)
  | .ok none => .ok none
  | .ok (some lb) =>
    let loadBalancerName := aws.StringValue lb.LoadBalancerName
    match cloud.describeLoadBalancerTags [loadBalancerName] with
    | .error err => .error err
    | .ok tagMap =>
      let tags := tagMap.index loadBalancerName
      let nameTag := (awsup.FindELBTag tags "Name").1
      if nameTag = "" then
        .error (Err.errorf
          "Found ELB %q linked to DNS name %q, but it did not have a Name tag"
          [loadBalancerName, fi.StringValue targetDNSName])
      else
        .ok (some (DNSTarget.classic { Name := some nameTag }))

/-- Source `findDNSTarget`: the classic probe, then the network probe. -/
def findDNSTarget (cloud : AWSCloud) (aliasTarget : AliasTarget) (dnsName : String)
    (targetDNSName : Option String) : Except Err (Option DNSTarget) :=
  match findDNSTargetELB cloud aliasTarget dnsName targetDNSName with
  | .error err => .error err
  | .ok (some ELB) => .ok (some ELB)
  | .ok none =>
    match findDNSTargetNLB cloud aliasTarget dnsName targetDNSName with
    | .error err => .error err
    | .ok (some NLB) => .ok (some NLB)
    | .ok none => .ok none

/-! ## Discovery -/

/-- The `for _, rr := range p.ResourceRecordSets` loop of the page callback in
`Find`, threading the captured variable `found`. -/
def Find.scanPage (findType findName : String) :
    List ResourceRecordSet → Option ResourceRecordSet → Option ResourceRecordSet
  | [], found => found
  | rr :: rest, found =>
    let resourceType := aws.StringValue rr.Type_
    let name := aws.StringValue rr.Name
    if findType ≠ resourceType then
      Find.scanPage findType findName rest found
    else
      let name := strings.TrimSuffix name "."
      if name = findName then some rr
      else Find.scanPage findType findName rest found

/-- The page callback of `Find`: scans the page and asks for the next page
while nothing has been found. -/
def Find.callback (findType findName : String) (found : Option ResourceRecordSet)
    (p : ListResourceRecordSetsOutput) ( _lastPage : Bool) :
    Option ResourceRecordSet × Bool :=
  let found := Find.scanPage findType findName p.ResourceRecordSets found
  (found, found.isNone)

/-- The SDK pager `ListResourceRecordSetsPages`: hands each page to `fn` until
`fn` declines to continue or the pages run out; the listing error surfaces
only if the pager gets as far as the failing request.  `s` is the state the
callback closes over. -/
def ListResourceRecordSetsPages {σ : Type}
    (fn : σ → ListResourceRecordSetsOutput → Bool → σ × Bool) :
    List ListResourceRecordSetsOutput → Option Err → σ → σ × Option Err
  | [], err, s => (s, err)
  | p :: ps, err, s =>
    let r := fn s p (ps.isEmpty && err.isNone)
    if r.2 then ListResourceRecordSetsPages fn ps err r.1
    else (r.1, none)

/-- The end of `Find`, once a record has been found: the actual record is
built from the desired one, and a non-blank alias target is resolved. -/
def Find.actual (cloud : AWSCloud) (e : DNSName) (found : ResourceRecordSet) :
    Except Err (Option DNSName) :=
  let actual : DNSName :=
    { Name := e.Name, Lifecycle := e.Lifecycle, ID := none, Zone := e.Zone,
      ResourceType := e.ResourceType, TargetLoadBalancer := none }
  match found.AliasTarget with
  | none => .ok (some actual)
  | some aliasTarget =>
    let dnsName := aws.StringValue aliasTarget.DNSName
    if dnsName ≠ "" then
      match findDNSTarget cloud aliasTarget dnsName e.Name with
      | .error err => .error err
      | .ok target => .ok (some { actual with TargetLoadBalancer := target })
    else .ok (some actual)

/-- Source `DNSName.Find`. -/
def DNSName.Find (cloud : AWSCloud) (e : DNSName) : Except Err (Option DNSName) :=
  match e.Zone with
  | none => .ok none
  | some zone =>
    match zone.ZoneID with
    | none => .ok none
    | some zoneID =>
      let findName := fi.StringValue e.Name
      if findName = "" then .ok none
      else
        let findName := strings.TrimSuffix findName "."
        let findType := fi.StringValue e.ResourceType
        if findType = "" then .ok none
        else
          let request : ListResourceRecordSetsInput := { HostedZoneId := some zoneID }
          let listing := cloud.listResourceRecordSets request
          let r := ListResourceRecordSetsPages (Find.callback findType findName)
            listing.pages listing.err none
          match r.2 with
          | some err => .error (Err.wrapf "error listing DNS ResourceRecords: %v" [] err)
          | none =>
            match r.1 with
            | none => .ok none
            | some found => Find.actual cloud e found

/-! ## Validation -/

/-- Source `DNSName.CheckChanges`; `e` is the desired record. -/
def DNSName.CheckChanges (a : Option DNSName) (e : DNSName) ( _changes : Option DNSName) :
    Option Err :=
  match a with
  | none => if fi.StringValue e.Name = "" then some (fi.RequiredField "Name") else none
  | some _ => none

/-! ## Rendering -/

/-- Modelled from the spec: `terraform.Literal` (package `terraform`, not in
this file) is an opaque reference literal of the Terraform backend; it is
kept as the expression it stands for. -/
structure terraform.Literal where
  Value : String
  deriving DecidableEq, Repr

/-- Modelled from the spec: `cloudformation.Literal` (package
`cloudformation`, not in this file) is an opaque reference literal of the
CloudFormation backend; it is kept as the expression it stands for. -/
structure cloudformation.Literal where
  Value : String
  deriving DecidableEq, Repr

/-- The methods of other tasks that the renderers call: the `DNSTarget`
interface (minus `fi.Task`) as implemented by the two load-balancer tasks,
and the two link methods of `DNSZone` (pointer receiver, so they take the
possibly-nil zone).  Their bodies are in other files and are taken as given. -/
structure Methods where
  getDNSName : DNSTarget → Option String
  getHostedZoneId : DNSTarget → Option String
  CloudformationAttrDNSName : DNSTarget → Option cloudformation.Literal
  CloudformationAttrCanonicalHostedZoneNameID : DNSTarget → Option cloudformation.Literal
  TerraformLink : DNSTarget → List String → Option terraform.Literal
  zoneTerraformLink : Option DNSZone → Option terraform.Literal
  zoneCloudformationLink : Option DNSZone → Option cloudformation.Literal

/-- Route 53 `Change`. -/
structure Change where
  Action : Option String
  ResourceRecordSet : Option ResourceRecordSet
  deriving DecidableEq, Repr

/-- Route 53 `ChangeBatch`. -/
structure ChangeBatch where
  Changes : List Change
  deriving DecidableEq, Repr

/-- Route 53 `ChangeResourceRecordSetsInput`. -/
structure ChangeResourceRecordSetsInput where
  HostedZoneId : Option String
  ChangeBatch : Option ChangeBatch
  deriving DecidableEq, Repr

/-- Route 53 `ChangeInfo`. -/
structure ChangeInfo where
  Id : Option String
  deriving DecidableEq, Repr

/-- Route 53 `ChangeResourceRecordSetsOutput`. -/
structure ChangeResourceRecordSetsOutput where
  ChangeInfo : Option ChangeInfo
  deriving DecidableEq, Repr

/-- The live target `awsup.AWSAPITarget`: its `Cloud.Route53()` answers a
change request with a response or an error. -/
structure AWSAPITarget where
  ChangeResourceRecordSets :
    ChangeResourceRecordSetsInput → Except Err ChangeResourceRecordSetsOutput

/-- Source `DNSName.RenderAWS`.  The calls are the change requests submitted. -/
def DNSName.RenderAWS (m : Methods) (t : AWSAPITarget) ( _a : Option DNSName) (e : DNSName)
    ( _changes : Option DNSName) : Effect ChangeResourceRecordSetsInput :=
  let rrs : ResourceRecordSet :=
    { Name := e.Name, Type_ := e.ResourceType, AliasTarget := none }
  let rrs : ResourceRecordSet :=
    match e.TargetLoadBalancer with
    | some target =>
      { rrs with
        AliasTarget := some
          { DNSName := m.getDNSName target,
            EvaluateTargetHealth := some false,
            HostedZoneId := m.getHostedZoneId target } }
    | none => rrs
  let change : Change := { Action := some "UPSERT", ResourceRecordSet := some rrs }
  let changeBatch : ChangeBatch := { Changes := [change] }
  match e.Zone with
  | none => { calls := [], result := .panicked }
  | some zone =>
    let request : ChangeResourceRecordSetsInput :=
      { HostedZoneId := zone.ZoneID, ChangeBatch := some changeBatch }
    match e.Name with
    | none => { calls := [], result := .panicked }
    | some _ =>
      match t.ChangeResourceRecordSets request with
      | .error err =>
        { calls := [request],
          result := .returned (some (Err.wrapf "error creating ResourceRecordSets: %v" [] err)) }
      | .ok response =>
        match response.ChangeInfo with
        | none => { calls := [request], result := .panicked }
        | some _ => { calls := [request], result := .returned none }

/-- Source `terraformAlias`. -/
structure terraformAlias where
  Name : Option terraform.Literal
  ZoneID : Option terraform.Literal
  EvaluateTargetHealth : Option Bool
  deriving DecidableEq, Repr

/-- Source `terraformRoute53Record`; `Type_` is the Go field `Type`. -/
structure terraformRoute53Record where
  Name : Option String
  Type_ : Option String
  TTL : Option String := none
  Records : List String := []
  Alias : Option terraformAlias := none
  ZoneID : Option terraform.Literal
  deriving DecidableEq, Repr

/-- One call `RenderResource(resourceType, resourceName, e)` to a document writer. -/
structure RenderResourceCall (α : Type) where
  resourceType : String
  resourceName : String
  e : α
  deriving DecidableEq, Repr

/-- The Terraform document writer `terraform.TerraformTarget`. -/
structure TerraformTarget where
  RenderResource : String → String → terraformRoute53Record → Option Err

/-- Source `DNSName.RenderTerraform`.  The calls are the resources emitted. -/
def DNSName.RenderTerraform (m : Methods) (t : TerraformTarget) ( _a : Option DNSName)
    (e : DNSName) ( _changes : Option DNSName) :
    Effect (RenderResourceCall terraformRoute53Record) :=
  let tf : terraformRoute53Record :=
    { Name := e.Name, ZoneID := m.zoneTerraformLink e.Zone, Type_ := e.ResourceType }
  let tf : terraformRoute53Record :=
    match e.TargetLoadBalancer with
    | some target =>
      { tf with
        Alias := some
          { Name := m.TerraformLink target ["dns_name"],
            EvaluateTargetHealth := some false,
            ZoneID := m.TerraformLink target ["zone_id"] } }
    | none => tf
  match e.Name with
  | none => { calls := [], result := .panicked }
  | some name =>
    { calls := [{ resourceType := "aws_route53_record", resourceName := name, e := tf }],
      result := .returned (t.RenderResource "aws_route53_record" name tf) }

/-- Source `cloudformationAlias`. -/
structure cloudformationAlias where
  DNSName : Option cloudformation.Literal
  ZoneID : Option cloudformation.Literal
  EvaluateTargetHealth : Option Bool
  deriving DecidableEq, Repr

/-- Source `cloudformationRoute53Record`; `Type_` is the Go field `Type`. -/
structure cloudformationRoute53Record where
  Name : Option String
  Type_ : Option String
  TTL : Option String := none
  ResourceRecords : List String := []
  AliasTarget : Option cloudformationAlias := none
  ZoneID : Option cloudformation.Literal
  deriving DecidableEq, Repr

/-- The CloudFormation document writer `cloudformation.CloudformationTarget`. -/
structure CloudformationTarget where
  RenderResource : String → String → cloudformationRoute53Record → Option Err

/-- Source `DNSName.RenderCloudformation`.  The calls are the resources emitted. -/
def DNSName.RenderCloudformation (m : Methods) (t : CloudformationTarget)
    ( _a : Option DNSName) (e : DNSName) ( _changes : Option DNSName) :
    Effect (RenderResourceCall cloudformationRoute53Record) :=
  let cf : cloudformationRoute53Record :=
    { Name := e.Name, ZoneID := m.zoneCloudformationLink e.Zone, Type_ := e.ResourceType }
  let cf : cloudformationRoute53Record :=
    match e.TargetLoadBalancer with
    | some target =>
      { cf with
        AliasTarget := some
          { DNSName := m.CloudformationAttrDNSName target,
            EvaluateTargetHealth := some false,
            ZoneID := m.CloudformationAttrCanonicalHostedZoneNameID target } }
    | none => cf
  match e.Name with
  | none => { calls := [], result := .panicked }
  | some name =>
    { calls := [{ resourceType := "AWS::Route53::RecordSet", resourceName := name, e := cf }],
      result := .returned (t.RenderResource "AWS::Route53::RecordSet" name cf) }

/-! ## Statement vocabulary -/

/-- All records of a listing, in page order. -/
def Listing.records (l : Listing) : List ResourceRecordSet :=
  (l.pages.map (·.ResourceRecordSets)).flatten

/-- The matching criterion in words: the listed record has the desired type,
and its name equals the desired name once one trailing dot has been removed
from each. -/
def Find.Matches (e : DNSName) (rr : ResourceRecordSet) : Prop :=
  aws.StringValue rr.Type_ = fi.StringValue e.ResourceType ∧
  strings.TrimSuffix (aws.StringValue rr.Name) "." =
    strings.TrimSuffix (fi.StringValue e.Name) "."

instance (e : DNSName) (rr : ResourceRecordSet) : Decidable (Find.Matches e rr) := by
  unfold Find.Matches
  exact inferInstance

/-- A tag set has no `Name` tag. -/
def Tag.NoName (tags : List Tag) : Prop :=
  ∀ tag ∈ tags, aws.StringValue tag.Key ≠ "Name"

instance (tags : List Tag) : Decidable (Tag.NoName tags) := by
  unfold Tag.NoName
  exact inferInstance

/-- An error is `cause` wrapped by `fmt.Errorf` with a context that contains
`name`, as an operand or inside the format text. -/
def Err.WrapsWithName (result cause : Err) (name : String) : Prop :=
  ∃ format args, result = Err.wrapf format args cause ∧
    (name ∈ args ∨ name.data <:+: format.data)

/-- Every dot of a character list turned into a dash. -/
def dotsToDashes (l : List Char) : List Char :=
  l.map fun c => if c = '.' then '-' else c

/-! ## Sample inputs -/

/-- The desired record of the scenario: `api.cluster1.example.com`, type `A`,
zone `Z1`. -/
def sampleDesired : DNSName :=
  { Name := some "api.cluster1.example.com", Lifecycle := none, ID := none,
    Zone := some { Name := some "example.com", ZoneID := some "Z1" },
    ResourceType := some "A", TargetLoadBalancer := none }

/-- The listed record of the scenario, with its trailing dot and its alias. -/
def sampleRecord : ResourceRecordSet :=
  { Name := some "api.cluster1.example.com.", Type_ := some "A",
    AliasTarget := some
      { DNSName := some "lb1.elb.amazonaws.com", EvaluateTargetHealth := some false,
        HostedZoneId := some "ZABC" } }

/-- The alias of `sampleRecord`. -/
def sampleAlias : AliasTarget :=
  { DNSName := some "lb1.elb.amazonaws.com", EvaluateTargetHealth := some false,
    HostedZoneId := some "ZABC" }

/-- A cloud where the alias resolves both as a classic and as a network load
balancer, each carrying a `Name` tag. -/
def cloudBoth : AWSCloud :=
  { listResourceRecordSets := fun _ =>
      { pages := [{ ResourceRecordSets := [sampleRecord] }], err := none },
    findLoadBalancerByAlias := fun _ => .ok (some { LoadBalancerName := some "lb1" }),
    describeLoadBalancerTags := fun _ =>
      .ok [("lb1", [{ Key := some "Name", Value := some "api.cluster1.example.com" }])],
    findNetworkLoadBalancerByAlias := fun _ =>
      .ok (some { LoadBalancerName := some "nlb1", LoadBalancerArn := some "arn:nlb1" }),
    describeNetworkLoadBalancerTags := fun _ =>
      .ok [("arn:nlb1", [{ Key := some "Name", Value := some "api.cluster2.example.com" }])] }

/-- A cloud whose classic load balancer behind the alias has no `Name` tag. -/
def cloudUntaggedELB : AWSCloud :=
  { cloudBoth with
    describeLoadBalancerTags := fun _ =>
      .ok [("lb1", [{ Key := some "KubernetesCluster", Value := some "cluster1" }])] }

/-- A cloud with no classic load balancer behind the alias, and a network load
balancer that has no `Name` tag. -/
def cloudUntaggedNLB : AWSCloud :=
  { cloudBoth with
    findLoadBalancerByAlias := fun _ => .ok none,
    describeNetworkLoadBalancerTags := fun _ => .ok [("arn:nlb1", [])] }

/-- A cloud whose record-set listing fails at the first request. -/
def cloudListingFails : AWSCloud :=
  { cloudBoth with
    listResourceRecordSets := fun _ =>
      { pages := [], err := some (Err.upstream "listing failed") } }

/-- A desired record that names nothing. -/
def sampleUnnamed : DNSName := { sampleDesired with Name := some "" }

/-- Accessors of the load-balancer tasks for the samples. -/
def sampleMethods : Methods :=
  { getDNSName := fun _ => some "lb1.elb.amazonaws.com",
    getHostedZoneId := fun _ => some "ZABC",
    CloudformationAttrDNSName := fun _ => some { Value := "GetAtt(lb, DNSName)" },
    CloudformationAttrCanonicalHostedZoneNameID := fun _ =>
      some { Value := "GetAtt(lb, CanonicalHostedZoneNameID)" },
    TerraformLink := fun _ params => some { Value := String.intercalate "." ("aws_elb.lb" :: params) },
    zoneTerraformLink := fun _ => some { Value := "aws_route53_zone.z.id" },
    zoneCloudformationLink := fun _ => some { Value := "Ref(zone)" } }

/-- The desired record of the scenario with a resolved classic target. -/
def sampleDesiredWithTarget : DNSName :=
  { sampleDesired with
    TargetLoadBalancer := some (DNSTarget.classic { Name := some "api.cluster1.example.com" }) }

/-- A live target whose change call fails. -/
def awsTargetFails : AWSAPITarget :=
  { ChangeResourceRecordSets := fun _ => .error (Err.upstream "throttled") }

/-- A live target whose change call succeeds. -/
def awsTargetOk : AWSAPITarget :=
  { ChangeResourceRecordSets := fun _ => .ok { ChangeInfo := some { Id := some "C1" } } }

/-- A Terraform writer whose emission fails. -/
def terraformTargetFails : TerraformTarget :=
  { RenderResource := fun _ _ _ => some (Err.upstream "disk full") }

/-- A CloudFormation writer whose emission fails. -/
def cloudformationTargetFails : CloudformationTarget :=
  { RenderResource := fun _ _ _ => some (Err.upstream "disk full") }

/-- The desired record of the scenario written with a trailing dot. -/
def sampleDotted : DNSName :=
  { sampleDesired with Name := some "api.cluster1.example.com." }

/-- A cloud that lists the name of `sampleDotted` followed by one more dot. -/
def cloudDoubleDot : AWSCloud :=
  { cloudBoth with
    listResourceRecordSets := fun _ =>
      { pages := [{ ResourceRecordSets :=
          [{ Name := some "api.cluster1.example.com..", Type_ := some "A",
             AliasTarget := none }] }],
        err := none } }

/-! ## Discovery: the page scan -/

/-- The record loop of the callback, entered with nothing found, returns the
first record of the page that matches. -/
theorem scanPage_eq_find (e : DNSName) (records : List ResourceRecordSet) :
    Find.scanPage (fi.StringValue e.ResourceType)
        (strings.TrimSuffix (fi.StringValue e.Name) ".") records none =
      records.find? (fun rr => decide (Find.Matches e rr)) := by
  induction records with
  | nil => rfl
  | cons rr rest ih =>
    unfold Find.scanPage
    dsimp only
    by_cases hT : fi.StringValue e.ResourceType = aws.StringValue rr.Type_
    · rw [if_neg (not_not.mpr hT)]
      by_cases hN : strings.TrimSuffix (aws.StringValue rr.Name) "." =
          strings.TrimSuffix (fi.StringValue e.Name) "."
      · have hm : Find.Matches e rr := ⟨hT.symm, hN⟩
        rw [if_pos hN, List.find?_cons]
        simp [hm]
      · have hm : ¬ Find.Matches e rr := fun h => hN h.2
        rw [if_neg hN, ih, List.find?_cons]
        simp [hm]
    · have hm : ¬ Find.Matches e rr := fun h => hT h.1.symm
      rw [if_pos hT, ih, List.find?_cons]
      simp [hm]

/-- The pager driven by the callback of `Find` ends with the first matching
record of the whole listing and no error, or, when no record matches, with
nothing found and the listing's own error. -/
theorem pages_eq_find (e : DNSName) (pages : List ListResourceRecordSetsOutput)
    (err : Option Err) :
    ListResourceRecordSetsPages
        (Find.callback (fi.StringValue e.ResourceType)
          (strings.TrimSuffix (fi.StringValue e.Name) ".")) pages err none =
      match (Listing.records { pages := pages, err := err }).find?
          (fun rr => decide (Find.Matches e rr)) with
      | some rr => (some rr, none)
      | none => (none, err) := by
  induction pages with
  | nil => rfl
  | cons p ps ih =>
    unfold ListResourceRecordSetsPages
    simp only [Find.callback, scanPage_eq_find, Listing.records, List.map_cons,
      List.flatten_cons, List.find?_append]
    cases hp : p.ResourceRecordSets.find? (fun rr => decide (Find.Matches e rr)) with
    | some rr => simp
    | none =>
      simp only [Option.isNone_none, ↓reduceIte, Option.none_or]
      rw [ih]
      simp [Listing.records]

/-- `Find` past its guards, on a listing that succeeds: absent when no record
matches, otherwise the actual record built for the first match. -/
theorem Find_eq_of_listed (cloud : AWSCloud) (e : DNSName) (zone : DNSZone) (zoneID : String)
    (hz : e.Zone = some zone) (hid : zone.ZoneID = some zoneID)
    (hn : fi.StringValue e.Name ≠ "") (ht : fi.StringValue e.ResourceType ≠ "")
    (hl : (cloud.listResourceRecordSets { HostedZoneId := some zoneID }).err = none) :
    DNSName.Find cloud e =
      match (Listing.records (cloud.listResourceRecordSets { HostedZoneId := some zoneID })).find?
          (fun rr => decide (Find.Matches e rr)) with
      | none => .ok none
      | some rr => Find.actual cloud e rr := by
  have hrec : Listing.records
      { pages := (cloud.listResourceRecordSets { HostedZoneId := some zoneID }).pages,
        err := none } =
      Listing.records (cloud.listResourceRecordSets { HostedZoneId := some zoneID }) := rfl
  simp only [DNSName.Find, hz, hid, hn, ht, ↓reduceIte]
  rw [hl, pages_eq_find, hrec]
  generalize (Listing.records (cloud.listResourceRecordSets
    { HostedZoneId := some zoneID })).find? (fun rr => decide (Find.Matches e rr)) = o
  cases o <;> rfl

/-- `Find` returns absent when the desired name is nil or empty. -/
theorem Find_of_no_name (cloud : AWSCloud) (e : DNSName) (hn : fi.StringValue e.Name = "") :
    DNSName.Find cloud e = .ok none := by
  cases hz : e.Zone with
  | none => simp [DNSName.Find, hz]
  | some zone =>
    cases hid : zone.ZoneID with
    | none => simp [DNSName.Find, hz, hid]
    | some zoneID => simp [DNSName.Find, hz, hid, hn]

/-- The end of `Find` never returns absent: it yields an actual record or an
error. -/
theorem Find_actual_ne_absent (cloud : AWSCloud) (e : DNSName) (rr : ResourceRecordSet) :
    Find.actual cloud e rr ≠ .ok none := by
  unfold Find.actual
  cases rr.AliasTarget with
  | none => simp
  | some aliasTarget =>
    by_cases hd : aws.StringValue aliasTarget.DNSName = ""
    · simp [hd]
    · simp only [ne_eq, hd, not_false_eq_true, ↓reduceIte]
      cases findDNSTarget cloud aliasTarget (aws.StringValue aliasTarget.DNSName) e.Name with
      | error err => simp
      | ok target => simp

/-! ## Discovery: guards -/

/-- C2: when the zone handle is nil, or its id is nil, or the name is nil or
empty, or the resource type is nil or empty, `Find` returns absent with no
error, whatever the cloud would answer (a failing listing included). -/
theorem Find_short_circuit (cloud : AWSCloud) (e : DNSName)
    (h : e.Zone = none ∨ (∃ zone, e.Zone = some zone ∧ zone.ZoneID = none) ∨
      e.Name = none ∨ e.Name = some "" ∨
      e.ResourceType = none ∨ e.ResourceType = some "") :
    DNSName.Find cloud e = .ok none := by
  cases hz : e.Zone with
  | none => simp [DNSName.Find, hz]
  | some zone =>
    cases hid : zone.ZoneID with
    | none => simp [DNSName.Find, hz, hid]
    | some zoneID =>
      by_cases hn : fi.StringValue e.Name = ""
      · simp [DNSName.Find, hz, hid, hn]
      · by_cases ht : fi.StringValue e.ResourceType = ""
        · simp [DNSName.Find, hz, hid, hn, ht]
        · exfalso
          rcases h with h | ⟨z, h1, h2⟩ | h | h | h | h
          · simp [hz] at h
          · rw [hz] at h1
            cases h1
            simp [hid] at h2
          · exact hn (by simp [h, fi.StringValue])
          · exact hn (by simp [h, fi.StringValue])
          · exact ht (by simp [h, fi.StringValue])
          · exact ht (by simp [h, fi.StringValue])

/-- Witness for C2: an empty desired name against a cloud whose listing fails. -/
theorem Find_short_circuit_witness :
    (cloudListingFails.listResourceRecordSets { HostedZoneId := some "Z1" }).err ≠ none ∧
    DNSName.Find cloudListingFails sampleUnnamed = .ok none :=
  ⟨by decide, Find_short_circuit cloudListingFails sampleUnnamed
    (Or.inr (Or.inr (Or.inr (Or.inl rfl))))⟩

/-! ## Discovery: matching -/

/-- Trimming one trailing dot undoes appending one. -/
theorem TrimSuffix_append_dot (n : String) : strings.TrimSuffix (n ++ ".") "." = n := by
  have hs : strings.HasSuffix (n ++ ".") "." = true := by
    simp only [strings.HasSuffix, String.data_append, List.isSuffixOf_iff_suffix]
    exact List.suffix_append _ _
  unfold strings.TrimSuffix
  rw [if_pos hs]
  have hd : (n ++ ".").data = n.data ++ ['.'] := by simp [String.data_append]
  have hdot : (".".data).length = 1 := rfl
  rw [hd, hdot]
  simp

/-- The first matching record, when there is one, is determined by the
existence of a matching record. -/
theorem find_matches_none_iff (e : DNSName) (records : List ResourceRecordSet) :
    records.find? (fun rr => decide (Find.Matches e rr)) = none ↔
      ¬ ∃ rr ∈ records, Find.Matches e rr := by
  simp [List.find?_eq_none]

/-- The end of `Find` fails exactly when the found record carries an alias
with a non-blank DNS name whose resolution fails, and with that error. -/
theorem Find_actual_error_iff (cloud : AWSCloud) (e : DNSName) (rr : ResourceRecordSet)
    (err : Err) :
    Find.actual cloud e rr = .error err ↔
      ∃ aliasTarget, rr.AliasTarget = some aliasTarget ∧
        aws.StringValue aliasTarget.DNSName ≠ "" ∧
        findDNSTarget cloud aliasTarget (aws.StringValue aliasTarget.DNSName) e.Name =
          .error err := by
  unfold Find.actual
  cases hA : rr.AliasTarget with
  | none => simp
  | some aliasTarget =>
    by_cases hd : aws.StringValue aliasTarget.DNSName = ""
    · simp [hd]
    · simp only [ne_eq, hd, not_false_eq_true, ↓reduceIte, Option.some.injEq,
        exists_eq_left', true_and]
      cases findDNSTarget cloud aliasTarget (aws.StringValue aliasTarget.DNSName) e.Name with
      | error err' => simp
      | ok target => simp

/-- A result of `Find`-typed code is an actual record unless it is absent or
an error. -/
theorem result_trichotomy (r : Except Err (Option DNSName)) (h : r ≠ .ok none) :
    (∃ actual, r = .ok (some actual)) ↔ ¬ ∃ err, r = .error err := by
  cases r with
  | error err => simp
  | ok v =>
    cases v with
    | none => exact absurd rfl h
    | some actual => simp

/-- C1 (amended): past the guards and on a listing that succeeds, `Find`
returns absent with no error exactly when no listed record has the desired
type and the desired name up to one trailing dot on each side; it returns an
actual record only when some listed record matches, and then exactly when
resolving the alias of the first matching record does not fail, returning the
resolver's error otherwise.  A name and the same name followed by a dot match
each other whenever the name does not itself end in a dot. -/
theorem Find_match_iff (cloud : AWSCloud) (e : DNSName) (zone : DNSZone) (zoneID : String)
    (hz : e.Zone = some zone) (hid : zone.ZoneID = some zoneID)
    (hn : fi.StringValue e.Name ≠ "") (ht : fi.StringValue e.ResourceType ≠ "")
    (hl : (cloud.listResourceRecordSets { HostedZoneId := some zoneID }).err = none) :
    (DNSName.Find cloud e = .ok none ↔
      ¬ ∃ rr ∈ Listing.records (cloud.listResourceRecordSets { HostedZoneId := some zoneID }),
          Find.Matches e rr) ∧
    ((∃ actual, DNSName.Find cloud e = .ok (some actual)) →
      ∃ rr ∈ Listing.records (cloud.listResourceRecordSets { HostedZoneId := some zoneID }),
          Find.Matches e rr) ∧
    (∀ rr,
      (Listing.records (cloud.listResourceRecordSets { HostedZoneId := some zoneID })).find?
          (fun rr => decide (Find.Matches e rr)) = some rr →
      ((∃ actual, DNSName.Find cloud e = .ok (some actual)) ↔
        ¬ ∃ aliasTarget err, rr.AliasTarget = some aliasTarget ∧
          aws.StringValue aliasTarget.DNSName ≠ "" ∧
          findDNSTarget cloud aliasTarget (aws.StringValue aliasTarget.DNSName) e.Name =
            .error err) ∧
      (∀ err, DNSName.Find cloud e = .error err ↔
        ∃ aliasTarget, rr.AliasTarget = some aliasTarget ∧
          aws.StringValue aliasTarget.DNSName ≠ "" ∧
          findDNSTarget cloud aliasTarget (aws.StringValue aliasTarget.DNSName) e.Name =
            .error err)) ∧
    (∀ n : String, strings.HasSuffix n "." = false →
      strings.TrimSuffix (n ++ ".") "." = strings.TrimSuffix n ".") := by
  have hFind := Find_eq_of_listed cloud e zone zoneID hz hid hn ht hl
  have hAbsent : DNSName.Find cloud e = .ok none ↔
      ¬ ∃ rr ∈ Listing.records (cloud.listResourceRecordSets { HostedZoneId := some zoneID }),
          Find.Matches e rr := by
    rw [← find_matches_none_iff, hFind]
    cases hf : (Listing.records (cloud.listResourceRecordSets
        { HostedZoneId := some zoneID })).find? (fun rr => decide (Find.Matches e rr)) with
    | none => simp
    | some rr => simpa using Find_actual_ne_absent cloud e rr
  refine ⟨hAbsent, ?_, ?_, ?_⟩
  · rintro ⟨actual, ha⟩
    by_contra hno
    rw [hAbsent.mpr hno] at ha
    cases ha
  · intro rr hrr
    rw [hrr] at hFind
    have hErr : ∀ err, DNSName.Find cloud e = .error err ↔
        ∃ aliasTarget, rr.AliasTarget = some aliasTarget ∧
          aws.StringValue aliasTarget.DNSName ≠ "" ∧
          findDNSTarget cloud aliasTarget (aws.StringValue aliasTarget.DNSName) e.Name =
            .error err := by
      intro err
      rw [hFind]
      exact Find_actual_error_iff cloud e rr err
    refine ⟨?_, hErr⟩
    rw [result_trichotomy _ (by rw [hFind]; exact Find_actual_ne_absent cloud e rr)]
    constructor
    · rintro hne ⟨aliasTarget, err, h⟩
      exact hne ⟨err, (hErr err).mpr ⟨aliasTarget, h⟩⟩
    · rintro hne ⟨err, h⟩
      obtain ⟨aliasTarget, h'⟩ := (hErr err).mp h
      exact hne ⟨aliasTarget, err, h'⟩
  · intro n hnot
    rw [TrimSuffix_append_dot]
    unfold strings.TrimSuffix
    simp [hnot]

/-- Witness for C1 (amended): the scenario, where the listed name carries the
trailing dot and the alias resolves. -/
theorem Find_match_iff_witness :
    (∃ actual, DNSName.Find cloudBoth sampleDesired = .ok (some actual)) ∧
    ∃ rr ∈ Listing.records (cloudBoth.listResourceRecordSets { HostedZoneId := some "Z1" }),
      Find.Matches sampleDesired rr :=
  ⟨⟨sampleDesiredWithTarget, rfl⟩,
   (Find_match_iff cloudBoth sampleDesired { Name := some "example.com", ZoneID := some "Z1" }
      "Z1" rfl rfl (by decide) (by decide) rfl).2.1 ⟨sampleDesiredWithTarget, rfl⟩⟩

/-- Counterexample to C1 as stated.  First: the listed record matches the
desired one, yet `Find` returns no actual record, because the classic load
balancer behind the alias has no `Name` tag and the resolver's error is
returned.  Second: the listed name is the desired name followed by a dot, yet
`Find` returns absent, because the desired name itself ends in a dot. -/
theorem Find_match_counterexample :
    ((∃ rr ∈ Listing.records
          (cloudUntaggedELB.listResourceRecordSets { HostedZoneId := some "Z1" }),
        Find.Matches sampleDesired rr) ∧
      (cloudUntaggedELB.listResourceRecordSets { HostedZoneId := some "Z1" }).err = none ∧
      DNSName.Find cloudUntaggedELB sampleDesired =
        .error (Err.errorf
          "Found ELB %q linked to DNS name %q, but it did not have a Name tag"
          ["lb1", "api.cluster1.example.com"]) ∧
      ¬ ∃ actual, DNSName.Find cloudUntaggedELB sampleDesired = .ok (some actual)) ∧
    ((cloudDoubleDot.listResourceRecordSets { HostedZoneId := some "Z1" }).pages =
        [{ ResourceRecordSets :=
          [{ Name := (sampleDotted.Name.map (· ++ ".")), Type_ := sampleDotted.ResourceType,
             AliasTarget := none }] }] ∧
      (cloudDoubleDot.listResourceRecordSets { HostedZoneId := some "Z1" }).err = none ∧
      DNSName.Find cloudDoubleDot sampleDotted = .ok none) := by
  have hF : DNSName.Find cloudUntaggedELB sampleDesired =
      .error (Err.errorf
        "Found ELB %q linked to DNS name %q, but it did not have a Name tag"
        ["lb1", "api.cluster1.example.com"]) := rfl
  refine ⟨⟨⟨sampleRecord, ?_, ?_⟩, rfl, hF, ?_⟩, ?_, rfl, rfl⟩
  · simp [Listing.records, cloudUntaggedELB, cloudBoth]
  · decide
  · rintro ⟨actual, ha⟩
    rw [hF] at ha
    cases ha
  · rfl

/-! ## Alias-target resolution -/

/-- A tag set without a `Name` tag yields the empty name (classic lookup). -/
theorem FindELBTag_of_NoName (tags : List Tag) (h : Tag.NoName tags) :
    awsup.FindELBTag tags "Name" = ("", false) := by
  induction tags with
  | nil => rfl
  | cons tag rest ih =>
    unfold awsup.FindELBTag
    rw [if_neg (h tag (List.mem_cons_self _ _))]
    exact ih fun t ht => h t (List.mem_cons_of_mem _ ht)

/-- A tag set without a `Name` tag yields the empty name (network lookup). -/
theorem FindELBV2Tag_of_NoName (tags : List Tag) (h : Tag.NoName tags) :
    awsup.FindELBV2Tag tags "Name" = ("", false) := by
  induction tags with
  | nil => rfl
  | cons tag rest ih =>
    unfold awsup.FindELBV2Tag
    rw [if_neg (h tag (List.mem_cons_self _ _))]
    exact ih fun t ht => h t (List.mem_cons_of_mem _ ht)

/-- The classic probe on a load balancer whose tags were fetched. -/
theorem findDNSTargetELB_found (cloud : AWSCloud) (aliasTarget : AliasTarget)
    (dnsName : String) (targetDNSName : Option String) (lb : LoadBalancerDescription)
    (tagMap : TagMap)
    (hlb : cloud.findLoadBalancerByAlias aliasTarget = .ok (some lb))
    (htags : cloud.describeLoadBalancerTags [aws.StringValue lb.LoadBalancerName] = .ok tagMap) :
    findDNSTargetELB cloud aliasTarget dnsName targetDNSName =
      if (awsup.FindELBTag (tagMap.index (aws.StringValue lb.LoadBalancerName)) "Name").1 = ""
      then .error (Err.errorf
        "Found ELB %q linked to DNS name %q, but it did not have a Name tag"
        [aws.StringValue lb.LoadBalancerName, fi.StringValue targetDNSName])
      else .ok (some (DNSTarget.classic
        { Name := some
            (awsup.FindELBTag (tagMap.index (aws.StringValue lb.LoadBalancerName)) "Name").1 })) := by
  simp only [findDNSTargetELB, hlb, htags]

/-- The network probe on a load balancer whose tags were fetched. -/
theorem findDNSTargetNLB_found (cloud : AWSCloud) (aliasTarget : AliasTarget)
    (dnsName : String) (targetDNSName : Option String) (lb : LoadBalancerV2)
    (tagMap : TagMap)
    (hlb : cloud.findNetworkLoadBalancerByAlias aliasTarget = .ok (some lb))
    (htags : cloud.describeNetworkLoadBalancerTags [aws.StringValue lb.LoadBalancerArn] =
      .ok tagMap) :
    findDNSTargetNLB cloud aliasTarget dnsName targetDNSName =
      if (awsup.FindELBV2Tag (tagMap.index (aws.StringValue lb.LoadBalancerArn)) "Name").1 = ""
      then .error (Err.errorf
        "Found NLB %q linked to DNS name %q, but it did not have a Name tag"
        [aws.StringValue lb.LoadBalancerName, fi.StringValue targetDNSName])
      else .ok (some (DNSTarget.network
        { Name := some (strings.Replace
            (awsup.FindELBV2Tag (tagMap.index (aws.StringValue lb.LoadBalancerArn)) "Name").1
            "." "-" (-1)) })) := by
  simp only [findDNSTargetNLB, hlb, htags]

/-- The classic probe finds nothing exactly when the classic lookup does. -/
theorem findDNSTargetELB_of_not_found (cloud : AWSCloud) (aliasTarget : AliasTarget)
    (dnsName : String) (targetDNSName : Option String)
    (hlb : cloud.findLoadBalancerByAlias aliasTarget = .ok none) :
    findDNSTargetELB cloud aliasTarget dnsName targetDNSName = .ok none := by
  simp only [findDNSTargetELB, hlb]

/-- C3: when the classic probe finds a load balancer whose tags hold no `Name`
tag, or the classic lookup finds nothing and the network probe finds a load
balancer whose tags hold no `Name` tag, `findDNSTarget` fails with the error
of that probe; in particular it does not return absent. -/
theorem findDNSTarget_untagged_fails (cloud : AWSCloud) (aliasTarget : AliasTarget)
    (dnsName : String) (targetDNSName : Option String)
    (h : (∃ lb tagMap, cloud.findLoadBalancerByAlias aliasTarget = .ok (some lb) ∧
          cloud.describeLoadBalancerTags [aws.StringValue lb.LoadBalancerName] = .ok tagMap ∧
          Tag.NoName (tagMap.index (aws.StringValue lb.LoadBalancerName))) ∨
        (cloud.findLoadBalancerByAlias aliasTarget = .ok none ∧
          ∃ lb tagMap, cloud.findNetworkLoadBalancerByAlias aliasTarget = .ok (some lb) ∧
          cloud.describeNetworkLoadBalancerTags [aws.StringValue lb.LoadBalancerArn] =
            .ok tagMap ∧
          Tag.NoName (tagMap.index (aws.StringValue lb.LoadBalancerArn)))) :
    (∃ err, findDNSTarget cloud aliasTarget dnsName targetDNSName = .error err ∧
      (findDNSTargetELB cloud aliasTarget dnsName targetDNSName = .error err ∨
        findDNSTargetNLB cloud aliasTarget dnsName targetDNSName = .error err)) ∧
    findDNSTarget cloud aliasTarget dnsName targetDNSName ≠ .ok none := by
  have key : ∃ err, findDNSTarget cloud aliasTarget dnsName targetDNSName = .error err ∧
      (findDNSTargetELB cloud aliasTarget dnsName targetDNSName = .error err ∨
        findDNSTargetNLB cloud aliasTarget dnsName targetDNSName = .error err) := by
    rcases h with ⟨lb, tagMap, hlb, htags, hno⟩ | ⟨hnone, lb, tagMap, hlb, htags, hno⟩
    · have hE := findDNSTargetELB_found cloud aliasTarget dnsName targetDNSName lb tagMap
        hlb htags
      rw [FindELBTag_of_NoName _ hno] at hE
      simp only [↓reduceIte] at hE
      exact ⟨_, by simp only [findDNSTarget, hE], Or.inl hE⟩
    · have hE := findDNSTargetELB_of_not_found cloud aliasTarget dnsName targetDNSName hnone
      have hN := findDNSTargetNLB_found cloud aliasTarget dnsName targetDNSName lb tagMap
        hlb htags
      rw [FindELBV2Tag_of_NoName _ hno] at hN
      simp only [↓reduceIte] at hN
      exact ⟨_, by simp only [findDNSTarget, hE, hN], Or.inr hN⟩
  refine ⟨key, ?_⟩
  obtain ⟨err, herr, _⟩ := key
  rw [herr]
  intro hc
  cases hc

/-- Witness for C3: an untagged classic load balancer, and an untagged network
load balancer behind an alias with no classic one. -/
theorem findDNSTarget_untagged_fails_witness :
    findDNSTarget cloudUntaggedELB sampleAlias "lb1.elb.amazonaws.com"
        (some "api.cluster1.example.com") ≠ .ok none ∧
    findDNSTarget cloudUntaggedNLB sampleAlias "lb1.elb.amazonaws.com"
        (some "api.cluster1.example.com") ≠ .ok none :=
  ⟨(findDNSTarget_untagged_fails cloudUntaggedELB sampleAlias "lb1.elb.amazonaws.com"
      (some "api.cluster1.example.com")
      (Or.inl ⟨{ LoadBalancerName := some "lb1" },
        [("lb1", [{ Key := some "KubernetesCluster", Value := some "cluster1" }])],
        rfl, rfl, by decide⟩)).2,
   (findDNSTarget_untagged_fails cloudUntaggedNLB sampleAlias "lb1.elb.amazonaws.com"
      (some "api.cluster1.example.com")
      (Or.inr ⟨rfl, { LoadBalancerName := some "nlb1", LoadBalancerArn := some "arn:nlb1" },
        [("arn:nlb1", [])], rfl, rfl, by decide⟩)).2⟩

/-- C4: when the classic probe finds a load balancer with a non-empty `Name`
tag, `findDNSTarget` returns the classic descriptor named by that tag, and
the answer is the same in every cloud that agrees on the classic lookups,
whatever its network lookups answer. -/
theorem findDNSTarget_classic_first (cloud : AWSCloud) (aliasTarget : AliasTarget)
    (dnsName : String) (targetDNSName : Option String) (lb : LoadBalancerDescription)
    (tagMap : TagMap) (nameTag : String)
    (hlb : cloud.findLoadBalancerByAlias aliasTarget = .ok (some lb))
    (htags : cloud.describeLoadBalancerTags [aws.StringValue lb.LoadBalancerName] = .ok tagMap)
    (hname : awsup.FindELBTag (tagMap.index (aws.StringValue lb.LoadBalancerName)) "Name" =
      (nameTag, true))
    (hne : nameTag ≠ "") :
    findDNSTarget cloud aliasTarget dnsName targetDNSName =
      .ok (some (DNSTarget.classic { Name := some nameTag })) ∧
    ∀ cloud' : AWSCloud,
      cloud'.findLoadBalancerByAlias = cloud.findLoadBalancerByAlias →
      cloud'.describeLoadBalancerTags = cloud.describeLoadBalancerTags →
      findDNSTarget cloud' aliasTarget dnsName targetDNSName =
        .ok (some (DNSTarget.classic { Name := some nameTag })) := by
  have main : ∀ cloud' : AWSCloud,
      cloud'.findLoadBalancerByAlias = cloud.findLoadBalancerByAlias →
      cloud'.describeLoadBalancerTags = cloud.describeLoadBalancerTags →
      findDNSTarget cloud' aliasTarget dnsName targetDNSName =
        .ok (some (DNSTarget.classic { Name := some nameTag })) := by
    intro cloud' h1 h2
    have hE := findDNSTargetELB_found cloud' aliasTarget dnsName targetDNSName lb tagMap
      (by rw [h1]; exact hlb) (by rw [h2]; exact htags)
    rw [hname] at hE
    simp only [hne, ↓reduceIte] at hE
    simp only [findDNSTarget, hE]
  exact ⟨main cloud rfl rfl, main⟩

/-- Witness for C4: the alias resolves as a network load balancer too, and the
classic descriptor is returned. -/
theorem findDNSTarget_classic_first_witness :
    findDNSTargetNLB cloudBoth sampleAlias "lb1.elb.amazonaws.com"
        (some "api.cluster1.example.com") =
      .ok (some (DNSTarget.network { Name := some "api-cluster2-example-com" })) ∧
    findDNSTarget cloudBoth sampleAlias "lb1.elb.amazonaws.com"
        (some "api.cluster1.example.com") =
      .ok (some (DNSTarget.classic { Name := some "api.cluster1.example.com" })) :=
  ⟨rfl,
   (findDNSTarget_classic_first cloudBoth sampleAlias "lb1.elb.amazonaws.com"
      (some "api.cluster1.example.com") { LoadBalancerName := some "lb1" }
      [("lb1", [{ Key := some "Name", Value := some "api.cluster1.example.com" }])]
      "api.cluster1.example.com" rfl rfl rfl (by decide)).1⟩

/-! ## Name recovery -/

/-- With one dot as `old`, one dash as `new` and no limit, the replacement loop
maps every dot to a dash, given fuel for every character. -/
theorem replaceLoop_dot_dash (fuel : Nat) (l : List Char) (h : l.length ≤ fuel) :
    strings.replaceLoop ['.'] ['-'] fuel none l = dotsToDashes l := by
  induction l generalizing fuel with
  | nil => cases fuel <;> rfl
  | cons c cs ih =>
    cases fuel with
    | zero => simp at h
    | succ fuel =>
      have hf : cs.length ≤ fuel := by simpa using h
      by_cases hc : c = '.'
      · subst hc
        simp [strings.replaceLoop, dotsToDashes, List.isPrefixOf] at *
        exact ih fuel hf
      · have hc' : ¬ '.' = c := fun h => hc h.symm
        simp [strings.replaceLoop, dotsToDashes, List.isPrefixOf, hc, hc'] at *
        exact ih fuel hf

/-- Replacing every dot by a dash, as `findDNSTargetNLB` does. -/
theorem Replace_dot_dash (t : String) :
    (strings.Replace t "." "-" (-1)).data = dotsToDashes t.data := by
  have h1 : (".".data = []) = False := by simp
  have h2 : ".".data = ['.'] := rfl
  have h3 : "-".data = ['-'] := rfl
  simp only [strings.Replace, h1, ↓reduceIte, h2, h3]
  exact replaceLoop_dot_dash _ _ (Nat.le_succ _)

/-- No dot survives `dotsToDashes`. -/
theorem dot_not_mem_dotsToDashes (l : List Char) : '.' ∉ dotsToDashes l := by
  intro h
  simp only [dotsToDashes, List.mem_map] at h
  obtain ⟨c, _, hc⟩ := h
  by_cases hd : c = '.'
  · rw [if_pos hd] at hc
    exact absurd hc (by decide)
  · rw [if_neg hd] at hc
    exact hd hc

/-- Turning dots into dashes keeps the UTF-8 size, which is what Go's `len`
counts. -/
theorem utf8Size_dotsToDashes (l : List Char) :
    String.utf8ByteSize.go (dotsToDashes l) = String.utf8ByteSize.go l := by
  induction l with
  | nil => rfl
  | cons c cs ih =>
    by_cases hc : c = '.'
    · subst hc
      simp only [dotsToDashes, List.map_cons, ↓reduceIte, String.utf8ByteSize.go] at *
      rw [ih]
      rfl
    · simp only [dotsToDashes, List.map_cons, hc, ↓reduceIte, String.utf8ByteSize.go] at *
      rw [ih]

/-- C5: when the network probe finds a load balancer with a non-empty `Name`
tag `t`, the descriptor it returns is named `t` with every dot turned into a
dash, so the name has no dot and the length of `t` (in characters and in
bytes); when the classic probe
finds a load balancer with a non-empty `Name` tag `t`, the descriptor it
returns is named `t` itself. -/
theorem findDNSTargetNLB_name_dashed (cloud : AWSCloud) (aliasTarget : AliasTarget)
    (dnsName : String) (targetDNSName : Option String) :
    (∀ (lb : LoadBalancerV2) (tagMap : TagMap) (t : String),
      cloud.findNetworkLoadBalancerByAlias aliasTarget = .ok (some lb) →
      cloud.describeNetworkLoadBalancerTags [aws.StringValue lb.LoadBalancerArn] = .ok tagMap →
      (awsup.FindELBV2Tag (tagMap.index (aws.StringValue lb.LoadBalancerArn)) "Name").1 = t →
      t ≠ "" →
      ∃ name : String,
        findDNSTargetNLB cloud aliasTarget dnsName targetDNSName =
          .ok (some (DNSTarget.network { Name := some name })) ∧
        name = strings.Replace t "." "-" (-1) ∧
        name.data = dotsToDashes t.data ∧
        '.' ∉ name.data ∧
        name.length = t.length ∧
        name.utf8ByteSize = t.utf8ByteSize) ∧
    (∀ (lb : LoadBalancerDescription) (tagMap : TagMap) (t : String),
      cloud.findLoadBalancerByAlias aliasTarget = .ok (some lb) →
      cloud.describeLoadBalancerTags [aws.StringValue lb.LoadBalancerName] = .ok tagMap →
      (awsup.FindELBTag (tagMap.index (aws.StringValue lb.LoadBalancerName)) "Name").1 = t →
      t ≠ "" →
      findDNSTargetELB cloud aliasTarget dnsName targetDNSName =
        .ok (some (DNSTarget.classic { Name := some t }))) := by
  constructor
  · intro lb tagMap t hlb htags ht hne
    have hN := findDNSTargetNLB_found cloud aliasTarget dnsName targetDNSName lb tagMap
      hlb htags
    rw [ht, if_neg hne] at hN
    refine ⟨_, hN, rfl, Replace_dot_dash t, ?_, ?_, ?_⟩
    · rw [Replace_dot_dash]
      exact dot_not_mem_dotsToDashes _
    · show (strings.Replace t "." "-" (-1)).data.length = t.data.length
      rw [Replace_dot_dash]
      simp [dotsToDashes]
    · show String.utf8ByteSize.go (strings.Replace t "." "-" (-1)).data =
        String.utf8ByteSize.go t.data
      rw [Replace_dot_dash]
      exact utf8Size_dotsToDashes _
  · intro lb tagMap t hlb htags ht hne
    have hE := findDNSTargetELB_found cloud aliasTarget dnsName targetDNSName lb tagMap
      hlb htags
    rw [ht, if_neg hne] at hE
    exact hE

/-- Witness for C5: the same dotted tag value read by both probes. -/
theorem findDNSTargetNLB_name_dashed_witness :
    findDNSTargetNLB cloudBoth sampleAlias "lb1.elb.amazonaws.com"
        (some "api.cluster1.example.com") =
      .ok (some (DNSTarget.network { Name := some "api-cluster2-example-com" })) ∧
    findDNSTargetELB cloudBoth sampleAlias "lb1.elb.amazonaws.com"
        (some "api.cluster1.example.com") =
      .ok (some (DNSTarget.classic { Name := some "api.cluster1.example.com" })) := by
  have h := findDNSTargetNLB_name_dashed cloudBoth sampleAlias "lb1.elb.amazonaws.com"
    (some "api.cluster1.example.com")
  obtain ⟨name, hres, hname, _⟩ := h.1
    { LoadBalancerName := some "nlb1", LoadBalancerArn := some "arn:nlb1" }
    [("arn:nlb1", [{ Key := some "Name", Value := some "api.cluster2.example.com" }])]
    "api.cluster2.example.com" rfl rfl rfl (by decide)
  refine ⟨?_, h.2 { LoadBalancerName := some "lb1" }
    [("lb1", [{ Key := some "Name", Value := some "api.cluster1.example.com" }])]
    "api.cluster1.example.com" rfl rfl rfl (by decide)⟩
  rw [hres, hname]
  rfl

/-! ## Rendering: what is submitted -/

/-- The live renderer, given a name and a zone, submits exactly one request,
built from the desired record alone. -/
theorem RenderAWS_calls (m : Methods) (t : AWSAPITarget) (a : Option DNSName) (e : DNSName)
    (changes : Option DNSName) (n : String) (zone : DNSZone)
    (hn : e.Name = some n) (hz : e.Zone = some zone) :
    (DNSName.RenderAWS m t a e changes).calls =
      [{ HostedZoneId := zone.ZoneID,
         ChangeBatch := some
           { Changes :=
               [{ Action := some "UPSERT",
                  ResourceRecordSet := some
                    { Name := some n, Type_ := e.ResourceType,
                      AliasTarget := e.TargetLoadBalancer.map fun target =>
                        { DNSName := m.getDNSName target,
                          EvaluateTargetHealth := some false,
                          HostedZoneId := m.getHostedZoneId target } } }] } }] := by
  simp only [DNSName.RenderAWS, hz, hn]
  cases e.TargetLoadBalancer <;>
    (dsimp only [Option.map]
     split
     · rfl
     · split <;> rfl)

/-! ## Rendering: the three backends -/

/-- C8: for a desired record with a name and a zone, the live renderer submits
exactly one request, to the desired zone id, holding one `UPSERT` change whose
record set has the desired name and type and an alias exactly when a target
is present, the alias carrying the target's DNS name, its hosted-zone id and
a false health flag; the request is the same for every target, `actual` and
`changes`, so rendering twice submits identical requests. -/
theorem RenderAWS_request (m : Methods) (t : AWSAPITarget) (a : Option DNSName) (e : DNSName)
    (changes : Option DNSName) (n : String) (zone : DNSZone)
    (hn : e.Name = some n) (hz : e.Zone = some zone) :
    (DNSName.RenderAWS m t a e changes).calls =
      [{ HostedZoneId := zone.ZoneID,
         ChangeBatch := some
           { Changes :=
               [{ Action := some "UPSERT",
                  ResourceRecordSet := some
                    { Name := e.Name, Type_ := e.ResourceType,
                      AliasTarget := e.TargetLoadBalancer.map fun target =>
                        { DNSName := m.getDNSName target,
                          EvaluateTargetHealth := some false,
                          HostedZoneId := m.getHostedZoneId target } } }] } }] ∧
    (∀ (t' : AWSAPITarget) (a' changes' : Option DNSName),
      (DNSName.RenderAWS m t' a' e changes').calls = (DNSName.RenderAWS m t a e changes).calls) := by
  constructor
  · rw [RenderAWS_calls m t a e changes n zone hn hz, hn]
  · intro t' a' changes'
    rw [RenderAWS_calls m t a e changes n zone hn hz,
      RenderAWS_calls m t' a' e changes' n zone hn hz]

/-- Witness for C8: the scenario rendered against a target that accepts the
change and against one that rejects it. -/
theorem RenderAWS_request_witness :
    (DNSName.RenderAWS sampleMethods awsTargetFails none sampleDesiredWithTarget none).calls =
      (DNSName.RenderAWS sampleMethods awsTargetOk (some sampleDesired) sampleDesiredWithTarget
        none).calls ∧
    (DNSName.RenderAWS sampleMethods awsTargetOk (some sampleDesired) sampleDesiredWithTarget
        none).calls =
      [{ HostedZoneId := some "Z1",
         ChangeBatch := some
           { Changes :=
               [{ Action := some "UPSERT",
                  ResourceRecordSet := some
                    { Name := some "api.cluster1.example.com", Type_ := some "A",
                      AliasTarget := some
                        { DNSName := some "lb1.elb.amazonaws.com",
                          EvaluateTargetHealth := some false,
                          HostedZoneId := some "ZABC" } } }] } }] :=
  ⟨(RenderAWS_request sampleMethods awsTargetOk (some sampleDesired) sampleDesiredWithTarget
      none "api.cluster1.example.com" { Name := some "example.com", ZoneID := some "Z1" }
      rfl rfl).2 awsTargetFails none none,
   (RenderAWS_request sampleMethods awsTargetOk (some sampleDesired) sampleDesiredWithTarget
      none "api.cluster1.example.com" { Name := some "example.com", ZoneID := some "Z1" }
      rfl rfl).1⟩

/-- C9: whatever the three renderers emit for one desired record carries the
desired name and type, and an alias exactly when a target is present; that
alias is read off the one target through the backend's own accessors (DNS
name and hosted-zone id), with a false health flag.  With a name and a zone,
each renderer emits exactly one object. -/
theorem render_alias_agree (m : Methods) (tA : AWSAPITarget) (tT : TerraformTarget)
    (tC : CloudformationTarget) (a : Option DNSName) (e : DNSName) (changes : Option DNSName) :
    (∀ req ∈ (DNSName.RenderAWS m tA a e changes).calls,
      ∃ rrs : ResourceRecordSet,
        req.ChangeBatch = some
          { Changes := [{ Action := some "UPSERT", ResourceRecordSet := some rrs }] } ∧
        rrs.Name = e.Name ∧ rrs.Type_ = e.ResourceType ∧
        rrs.AliasTarget = e.TargetLoadBalancer.map fun target =>
          { DNSName := m.getDNSName target,
            EvaluateTargetHealth := some false,
            HostedZoneId := m.getHostedZoneId target }) ∧
    (∀ call ∈ (DNSName.RenderTerraform m tT a e changes).calls,
      call.e.Name = e.Name ∧ call.e.Type_ = e.ResourceType ∧
      call.e.Alias = e.TargetLoadBalancer.map fun target =>
        { Name := m.TerraformLink target ["dns_name"],
          ZoneID := m.TerraformLink target ["zone_id"],
          EvaluateTargetHealth := some false }) ∧
    (∀ call ∈ (DNSName.RenderCloudformation m tC a e changes).calls,
      call.e.Name = e.Name ∧ call.e.Type_ = e.ResourceType ∧
      call.e.AliasTarget = e.TargetLoadBalancer.map fun target =>
        { DNSName := m.CloudformationAttrDNSName target,
          ZoneID := m.CloudformationAttrCanonicalHostedZoneNameID target,
          EvaluateTargetHealth := some false }) ∧
    (∀ n zone, e.Name = some n → e.Zone = some zone →
      (DNSName.RenderAWS m tA a e changes).calls.length = 1 ∧
      (DNSName.RenderTerraform m tT a e changes).calls.length = 1 ∧
      (DNSName.RenderCloudformation m tC a e changes).calls.length = 1) := by
  refine ⟨?_, ?_, ?_, ?_⟩
  · intro req hreq
    cases hz : e.Zone with
    | none => simp [DNSName.RenderAWS, hz] at hreq
    | some zone =>
      cases hn : e.Name with
      | none => simp [DNSName.RenderAWS, hz, hn] at hreq
      | some n =>
        rw [RenderAWS_calls m tA a e changes n zone hn hz, List.mem_singleton] at hreq
        subst hreq
        exact ⟨_, rfl, rfl, rfl, rfl⟩
  · intro call hcall
    cases hn : e.Name with
    | none => simp [DNSName.RenderTerraform, hn] at hcall
    | some n =>
      simp only [DNSName.RenderTerraform, hn, List.mem_singleton] at hcall
      subst hcall
      cases e.TargetLoadBalancer <;> exact ⟨rfl, rfl, rfl⟩
  · intro call hcall
    cases hn : e.Name with
    | none => simp [DNSName.RenderCloudformation, hn] at hcall
    | some n =>
      simp only [DNSName.RenderCloudformation, hn, List.mem_singleton] at hcall
      subst hcall
      cases e.TargetLoadBalancer <;> exact ⟨rfl, rfl, rfl⟩
  · intro n zone hn hz
    refine ⟨?_, ?_, ?_⟩
    · rw [RenderAWS_calls m tA a e changes n zone hn hz]
      rfl
    · simp [DNSName.RenderTerraform, hn]
    · simp [DNSName.RenderCloudformation, hn]

/-- Witness for C9: the scenario, where each renderer emits one object and the
three aliases are those of the one classic target. -/
theorem render_alias_agree_witness :
    ((DNSName.RenderAWS sampleMethods awsTargetOk none sampleDesiredWithTarget
        none).calls.length = 1 ∧
      (DNSName.RenderTerraform sampleMethods terraformTargetFails none sampleDesiredWithTarget
        none).calls.length = 1 ∧
      (DNSName.RenderCloudformation sampleMethods cloudformationTargetFails none
        sampleDesiredWithTarget none).calls.length = 1) ∧
    (∀ call ∈ (DNSName.RenderTerraform sampleMethods terraformTargetFails none
        sampleDesiredWithTarget none).calls,
      call.e.Alias = some
        { Name := some { Value := "aws_elb.lb.dns_name" },
          ZoneID := some { Value := "aws_elb.lb.zone_id" },
          EvaluateTargetHealth := some false }) ∧
    (∀ call ∈ (DNSName.RenderCloudformation sampleMethods cloudformationTargetFails none
        sampleDesiredWithTarget none).calls,
      call.e.AliasTarget = some
        { DNSName := some { Value := "GetAtt(lb, DNSName)" },
          ZoneID := some { Value := "GetAtt(lb, CanonicalHostedZoneNameID)" },
          EvaluateTargetHealth := some false }) :=
  ⟨(render_alias_agree sampleMethods awsTargetOk terraformTargetFails cloudformationTargetFails
      none sampleDesiredWithTarget none).2.2.2 "api.cluster1.example.com"
      { Name := some "example.com", ZoneID := some "Z1" } rfl rfl,
   fun call h =>
    ((render_alias_agree sampleMethods awsTargetOk terraformTargetFails
      cloudformationTargetFails none sampleDesiredWithTarget none).2.1 call h).2.2,
   fun call h =>
    ((render_alias_agree sampleMethods awsTargetOk terraformTargetFails
      cloudformationTargetFails none sampleDesiredWithTarget none).2.2.1 call h).2.2⟩

/-- C7 (amended): when the change call fails, the live renderer returns that
error wrapped by the fixed format `error creating ResourceRecordSets: %v`,
which has no other operand; when the emission call fails, the Terraform and
CloudFormation renderers return that error itself, the record's name having
been passed to the writer as the resource name. -/
theorem render_error_propagation (m : Methods) (tA : AWSAPITarget) (tT : TerraformTarget)
    (tC : CloudformationTarget) (a : Option DNSName) (e : DNSName) (changes : Option DNSName)
    (cause : Err) :
    (∀ req ∈ (DNSName.RenderAWS m tA a e changes).calls,
      tA.ChangeResourceRecordSets req = .error cause →
      (DNSName.RenderAWS m tA a e changes).result =
        .returned (some (Err.wrapf "error creating ResourceRecordSets: %v" [] cause))) ∧
    (∀ call ∈ (DNSName.RenderTerraform m tT a e changes).calls,
      tT.RenderResource call.resourceType call.resourceName call.e = some cause →
      e.Name = some call.resourceName ∧
      (DNSName.RenderTerraform m tT a e changes).result = .returned (some cause)) ∧
    (∀ call ∈ (DNSName.RenderCloudformation m tC a e changes).calls,
      tC.RenderResource call.resourceType call.resourceName call.e = some cause →
      e.Name = some call.resourceName ∧
      (DNSName.RenderCloudformation m tC a e changes).result = .returned (some cause)) := by
  refine ⟨?_, ?_, ?_⟩
  · intro req hreq hfail
    cases hz : e.Zone with
    | none => simp [DNSName.RenderAWS, hz] at hreq
    | some zone =>
      cases hn : e.Name with
      | none => simp [DNSName.RenderAWS, hz, hn] at hreq
      | some n =>
        rw [RenderAWS_calls m tA a e changes n zone hn hz, List.mem_singleton] at hreq
        subst hreq
        simp only [DNSName.RenderAWS, hz, hn]
        cases hT : e.TargetLoadBalancer <;>
          (simp only [hT, Option.map] at hfail
           simp only [hfail])
  · intro call hcall hfail
    cases hn : e.Name with
    | none => simp [DNSName.RenderTerraform, hn] at hcall
    | some n =>
      simp only [DNSName.RenderTerraform, hn, List.mem_singleton] at hcall
      subst hcall
      refine ⟨rfl, ?_⟩
      simp only [DNSName.RenderTerraform, hn]
      exact congrArg _ hfail
  · intro call hcall hfail
    cases hn : e.Name with
    | none => simp [DNSName.RenderCloudformation, hn] at hcall
    | some n =>
      simp only [DNSName.RenderCloudformation, hn, List.mem_singleton] at hcall
      subst hcall
      refine ⟨rfl, ?_⟩
      simp only [DNSName.RenderCloudformation, hn]
      exact congrArg _ hfail

/-- Witness for C7 (amended): the scenario against a failing cloud and failing
writers. -/
theorem render_error_propagation_witness :
    (DNSName.RenderAWS sampleMethods awsTargetFails none sampleDesiredWithTarget none).result =
      .returned (some (Err.wrapf "error creating ResourceRecordSets: %v" []
        (Err.upstream "throttled"))) ∧
    (DNSName.RenderTerraform sampleMethods terraformTargetFails none sampleDesiredWithTarget
      none).result = .returned (some (Err.upstream "disk full")) ∧
    (DNSName.RenderCloudformation sampleMethods cloudformationTargetFails none
      sampleDesiredWithTarget none).result = .returned (some (Err.upstream "disk full")) :=
  ⟨(render_error_propagation sampleMethods awsTargetFails terraformTargetFails
      cloudformationTargetFails none sampleDesiredWithTarget none (Err.upstream "throttled")).1
      _ (List.mem_singleton.mpr rfl) rfl,
   ((render_error_propagation sampleMethods awsTargetFails terraformTargetFails
      cloudformationTargetFails none sampleDesiredWithTarget none (Err.upstream "disk full")).2.1
      _ (List.mem_singleton.mpr rfl) rfl).2,
   ((render_error_propagation sampleMethods awsTargetFails terraformTargetFails
      cloudformationTargetFails none sampleDesiredWithTarget none (Err.upstream "disk full")).2.2
      _ (List.mem_singleton.mpr rfl) rfl).2⟩

/-- Counterexample to C7 as stated: for the record `api.cluster1.example.com`,
the change call and both emission calls fail, and none of the three errors
returned is the underlying error wrapped with a context that contains the
record's name: the live renderer's context is a fixed text without operands,
and the other two renderers return the underlying error unwrapped. -/
theorem render_error_counterexample :
    sampleDesiredWithTarget.Name = some "api.cluster1.example.com" ∧
    (∀ req, awsTargetFails.ChangeResourceRecordSets req = .error (Err.upstream "throttled")) ∧
    (∃ r, (DNSName.RenderAWS sampleMethods awsTargetFails none sampleDesiredWithTarget
          none).result = .returned (some r) ∧
      ¬ Err.WrapsWithName r (Err.upstream "throttled") "api.cluster1.example.com") ∧
    (∀ rt rn e, terraformTargetFails.RenderResource rt rn e = some (Err.upstream "disk full")) ∧
    (∃ r, (DNSName.RenderTerraform sampleMethods terraformTargetFails none
          sampleDesiredWithTarget none).result = .returned (some r) ∧
      ¬ Err.WrapsWithName r (Err.upstream "disk full") "api.cluster1.example.com") ∧
    (∀ rt rn e,
      cloudformationTargetFails.RenderResource rt rn e = some (Err.upstream "disk full")) ∧
    (∃ r, (DNSName.RenderCloudformation sampleMethods cloudformationTargetFails none
          sampleDesiredWithTarget none).result = .returned (some r) ∧
      ¬ Err.WrapsWithName r (Err.upstream "disk full") "api.cluster1.example.com") := by
  refine ⟨rfl, fun _ => rfl, ⟨_, rfl, ?_⟩, fun _ _ _ => rfl, ⟨_, rfl, ?_⟩,
    fun _ _ _ => rfl, ⟨_, rfl, ?_⟩⟩
  · rintro ⟨format, args, heq, hc⟩
    injection heq with h1 h2 h3
    subst h1
    subst h2
    rcases hc with h | h
    · simp at h
    · exact absurd h (by decide)
  · rintro ⟨format, args, heq, _⟩
    cases heq
  · rintro ⟨format, args, heq, _⟩
    cases heq

/-! ## Discovery, then validation -/

/-- C10: if `Find` returns without error and `CheckChanges` accepts its result,
the desired name is non-nil and non-empty; hence the name dereferences of the
renderers do not fail: the two document renderers return, and the live
renderer, given a zone, gets as far as submitting its request. -/
theorem Find_CheckChanges_name (m : Methods) (cloud : AWSCloud) (e : DNSName)
    (actual changes : Option DNSName)
    (hFind : DNSName.Find cloud e = .ok actual)
    (hCheck : DNSName.CheckChanges actual e changes = none) :
    (∃ n, e.Name = some n ∧ n ≠ "") ∧
    (∀ t a c, (DNSName.RenderTerraform m t a e c).result ≠ .panicked) ∧
    (∀ t a c, (DNSName.RenderCloudformation m t a e c).result ≠ .panicked) ∧
    (∀ t a c zone, e.Zone = some zone → (DNSName.RenderAWS m t a e c).calls ≠ []) := by
  have hne : fi.StringValue e.Name ≠ "" := by
    intro hempty
    rw [Find_of_no_name cloud e hempty] at hFind
    cases hFind
    simp [DNSName.CheckChanges, hempty] at hCheck
  cases hN : e.Name with
  | none => simp [fi.StringValue, hN] at hne
  | some n =>
    have hn : n ≠ "" := by simpa [fi.StringValue, hN] using hne
    refine ⟨⟨n, rfl, hn⟩, ?_, ?_, ?_⟩
    · intro t a c
      simp [DNSName.RenderTerraform, hN]
    · intro t a c
      simp [DNSName.RenderCloudformation, hN]
    · intro t a c zone hz
      rw [RenderAWS_calls m t a e c n zone hN hz]
      simp

/-- Witness for C10: the scenario passes `Find` and `CheckChanges`. -/
theorem Find_CheckChanges_name_witness :
    DNSName.Find cloudBoth sampleDesired = .ok (some sampleDesiredWithTarget) ∧
    DNSName.CheckChanges (some sampleDesiredWithTarget) sampleDesired none = none ∧
    ∃ n, sampleDesired.Name = some n ∧ n ≠ "" :=
  ⟨rfl, rfl,
   (Find_CheckChanges_name sampleMethods cloudBoth sampleDesired (some sampleDesiredWithTarget)
      none rfl rfl).1⟩

/-! ## Validation: `CheckChanges` -/

/-- C6: `CheckChanges` returns an error exactly when `actual` is absent and the
desired name is nil or empty; the error is then the required-field error for
`Name`; and the result depends on nothing but the absence of `actual` and the
desired name (resource type, zone, target, lifecycle and `changes` are free). -/
theorem CheckChanges_error_iff (a : Option DNSName) (e : DNSName) (changes : Option DNSName) :
    ((∃ err, DNSName.CheckChanges a e changes = some err) ↔
        (a = none ∧ (e.Name = none ∨ e.Name = some ""))) ∧
    (∀ err, DNSName.CheckChanges a e changes = some err → err = fi.RequiredField "Name") ∧
    (∀ (a' : Option DNSName) (e' : DNSName) (changes' : Option DNSName),
        (a' = none ↔ a = none) → e'.Name = e.Name →
        DNSName.CheckChanges a' e' changes' = DNSName.CheckChanges a e changes) := by
  refine ⟨?_, ?_, ?_⟩
  · cases a with
    | some v => simp [DNSName.CheckChanges]
    | none =>
      cases hN : e.Name with
      | none => simp [DNSName.CheckChanges, fi.StringValue, hN]
      | some n =>
        by_cases hn : n = "" <;> simp [DNSName.CheckChanges, fi.StringValue, hN, hn]
  · intro err h
    cases a with
    | some v => simp [DNSName.CheckChanges] at h
    | none =>
      by_cases hn : fi.StringValue e.Name = ""
      · simp [DNSName.CheckChanges, hn] at h
        exact h.symm
      · simp [DNSName.CheckChanges, hn] at h
  · intro a' e' changes' ha he
    cases a with
    | some v =>
      cases a' with
      | some v' => simp [DNSName.CheckChanges]
      | none => simp at ha
    | none =>
      cases a' with
      | some v' => simp at ha
      | none => simp [DNSName.CheckChanges, he]

end Awstasks
